import Mathlib

/-!
Verification of the amara-ai credit-assessment backend.

Shallow embedding of `backend/app/services/scoring_engine.py`,
`backend/app/services/gemini_service.py`, `backend/app/services/ml_inference.py`,
`backend/app/models/assessment.py` and the assessment router.

Modelling conventions:
* Python floats are embedded as exact rationals `ℚ`.
* Calendar dates (bill dates, date of birth, today) are embedded as day
  numbers `Int`; a date string that `pd.to_datetime(..., errors="coerce")`
  fails to parse is `none` (pandas `NaT`).
* Python dicts with fixed string keys are embedded as structures; the dict
  `active_weights`, whose key set varies, is a `List (String × ℚ)` in
  insertion order.
* Fallible Python code is embedded in `Except PyErr`.
* External effects (the pickled classifier, the filesystem, the Gemini
  client and its responses) are an explicit environment `Env`.
-/

set_option autoImplicit false

namespace Amara

/-- Python exception classes that the embedded code can raise. -/
inductive PyErr where
  | fileNotFound
  | attributeError
  | validationError
  | unpickling
  deriving DecidableEq

/-- Python truthiness of an `Optional[str]`: `None` and `""` are falsy. -/
def truthy : Option String → Bool
  | none => false
  | some s => s != ""

/-! ## models/assessment.py -/

/-- RiskCategory enum (assessment.py lines 7-11). -/
inductive RiskCategory where
  | LOW
  | MEDIUM
  | HIGH
  | VERY_HIGH
  deriving DecidableEq

/-- String value of a `RiskCategory` member. -/
def RiskCategory.value : RiskCategory → String
  | .LOW => "LOW"
  | .MEDIUM => "MEDIUM"
  | .HIGH => "HIGH"
  | .VERY_HIGH => "VERY_HIGH"

/-- LoanRecommendation enum (assessment.py lines 14-17). -/
inductive LoanRecommendation where
  | APPROVE
  | REVIEW
  | REJECT
  deriving DecidableEq

/-- BillData (assessment.py lines 20-24). Dates are embedded as parsed day
numbers, `none` for an absent or unparseable date string. -/
structure BillData where
  amount : ℚ
  paid_amount : ℚ
  bill_paid_date : Option Int
  bill_scheduled_date : Option Int
  deriving DecidableEq

/-- LoanAssessmentRequest (assessment.py lines 27-38). The model declares
exactly these fields; in particular it declares no `business_image_base64`
or `home_image_base64` field. -/
structure LoanAssessmentRequest where
  loan_id : String
  customer_number : String
  principal_amount : ℚ
  outstanding_amount : ℚ
  dpd : Int
  marital_status : String
  date_of_birth : Option Int
  bills_data : List BillData
  field_agent_notes : Option String
  business_image_path : Option String
  home_image_path : Option String

/-- The feature dict built by `prepare_features` (ml_inference.py lines 117-126). -/
structure Features where
  principal_amount : ℚ
  outstanding_amount : ℚ
  outstanding_ratio : ℚ
  avg_bill_gap : ℚ
  late_ratio : ℚ
  paid_ratio : ℚ
  marital_status : String
  age_group : String
  deriving DecidableEq

/-- MLScoreResult (assessment.py lines 41-43). -/
structure MLScoreResult where
  probability_of_default : ℚ
  features_used : Features
  deriving DecidableEq

/-- VisionScoreResult (assessment.py lines 46-49). -/
structure VisionScoreResult where
  business_score : Option ℚ
  home_score : Option ℚ
  combined_score : ℚ
  deriving DecidableEq

/-- NLPScoreResult (assessment.py lines 52-54). -/
structure NLPScoreResult where
  sentiment_score : ℚ
  analyzed_text : Option String
  deriving DecidableEq

/-- AssessmentResponse (assessment.py lines 57-67). `recommendation` is a
required field with no default. -/
structure AssessmentResponse where
  loan_id : String
  customer_number : String
  ml_score : MLScoreResult
  vision_score : Option VisionScoreResult
  nlp_score : Option NLPScoreResult
  final_risk_score : ℚ
  risk_category : RiskCategory
  recommendation : LoanRecommendation
  explanation : String
  weights_used : List (String × ℚ)

/-- get_risk_category (assessment.py lines 70-78). -/
def get_risk_category (score : ℚ) : RiskCategory :=
  if score < 3/10 then .LOW
  else if score < 5/10 then .MEDIUM
  else if score < 7/10 then .HIGH
  else .VERY_HIGH

/-- get_recommendation (assessment.py lines 81-87). -/
def get_recommendation (score : ℚ) : LoanRecommendation :=
  if score < 4/10 then .APPROVE
  else if score < 6/10 then .REVIEW
  else .REJECT

/-! ## services/scoring_engine.py : score fusion -/

/-- The weights dict passed to `calculate_final_score`: fixed keys
"pod", "vision", "nlp" (scoring_engine.py lines 15-19). -/
structure Weights where
  pod : ℚ
  vision : ℚ
  nlp : ℚ
  deriving DecidableEq

/-- DEFAULT_WEIGHTS (scoring_engine.py lines 15-19). -/
def DEFAULT_WEIGHTS : Weights := ⟨70/100, 15/100, 15/100⟩

/-- Python `sum(DEFAULT_WEIGHTS.values())` (scoring_engine.py line 60). -/
def sum_default_weights : ℚ :=
  DEFAULT_WEIGHTS.pod + DEFAULT_WEIGHTS.vision + DEFAULT_WEIGHTS.nlp

/-- calculate_final_score (scoring_engine.py lines 22-66), returning the pair
`(final_score, active_weights)`. -/
def calculate_final_score (pod : ℚ) (vision_score nlp_score : Option ℚ)
    (weights : Weights) : ℚ × List (String × ℚ) :=
  let pod_weight := weights.pod
  let weighted_sum := pod_weight * pod
  let total_weight := pod_weight
  let active_weights := [("pod", pod_weight)]
  let step_vision : ℚ × ℚ × List (String × ℚ) :=
    match vision_score with
    | some v =>
        (weighted_sum + weights.vision * (1 - v), total_weight + weights.vision,
         active_weights ++ [("vision", weights.vision)])
    | none => (weighted_sum, total_weight, active_weights)
  let step_nlp : ℚ × ℚ × List (String × ℚ) :=
    match nlp_score with
    | some n =>
        (step_vision.1 + weights.nlp * (1 - n), step_vision.2.1 + weights.nlp,
         step_vision.2.2 ++ [("nlp", weights.nlp)])
    | none => step_vision
  let final_score :=
    if step_nlp.2.1 > 0 then
      max 0 (min 1 (step_nlp.1 / step_nlp.2.1 * sum_default_weights))
    else pod
  (final_score, step_nlp.2.2)

/-- Clamp to the unit interval, as `max(0.0, min(1.0, x))`. -/
def clamp01 (x : ℚ) : ℚ := max 0 (min 1 x)

/-- Modelled from the spec wording of C1 (spec §4.3), for comparison with the
source definition: the weighted sum of the present risk contributions, divided
by the total weight of the present components, rescaled by the sum of all
nominal weights, clamped to the unit interval. -/
def spec_final_score (pod : ℚ) (vision_score nlp_score : Option ℚ) : ℚ :=
  let ws := 70/100 * pod
    + (match vision_score with | some v => 15/100 * (1 - v) | none => 0)
    + (match nlp_score with | some n => 15/100 * (1 - n) | none => 0)
  let tw := 70/100
    + (if vision_score.isSome then (15:ℚ)/100 else 0)
    + (if nlp_score.isSome then (15:ℚ)/100 else 0)
  clamp01 (ws / tw * 1)

/-- Weighted risk sum over the present components, for an arbitrary weights
map (the value `weighted_sum` reaches at scoring_engine.py line 58). -/
def weighted_sum_of (weights : Weights) (pod : ℚ) (vision_score nlp_score : Option ℚ) : ℚ :=
  weights.pod * pod
    + (match vision_score with | some v => weights.vision * (1 - v) | none => 0)
    + (match nlp_score with | some n => weights.nlp * (1 - n) | none => 0)

/-- Total weight of the present components, for an arbitrary weights map
(the value `total_weight` reaches at scoring_engine.py line 58). -/
def total_weight_of (weights : Weights) (vision_score nlp_score : Option ℚ) : ℚ :=
  weights.pod
    + (if vision_score.isSome then weights.vision else 0)
    + (if nlp_score.isSome then weights.nlp else 0)

/-! ## External effects

The pickled classifier, the filesystem, the Gemini client and the outcomes of
the Gemini calls are the external collaborators of the engine. They are
embedded as an explicit environment. `Except Unit ℚ` outcome fields model a
call that either yields a parsed numeric score or raises some exception. -/

structure Env where
  /-- Whether `Path(settings.MODEL_PATH)` exists (ml_inference.py line 48). -/
  modelPresent : Bool
  /-- Outcome of `pickle.load` on the artifact; the loaded model is its
  `predict_proba` class-1 column, a function from the feature row to `ℚ`. -/
  modelLoad : Except Unit (Features → ℚ)
  /-- Whether `get_gemini_client()` returns a client (gemini_service.py lines
  10-23): the API key is set and client construction succeeded. -/
  clientAvailable : Bool
  /-- `Path(p).exists()` for a path string (gemini_service.py line 48). -/
  fileExists : String → Bool
  /-- Whether the PIL import and `Image.open(path)` succeed
  (gemini_service.py lines 53-55). -/
  openOk : String → Bool
  /-- Whether base64 decoding and `Image.open` on the decoded bytes succeed
  (gemini_service.py lines 72-83). -/
  b64Ok : String → Bool
  /-- Outcome of `generate_content` plus JSON parsing plus the float
  conversion in `_assess_image_object`, keyed by the image source string
  (file path or base64 payload) and the asset type; `.ok v` is the parsed
  `vision_score` (or the `data.get` default), `.error` any raised exception. -/
  visionOutcome : String → String → Except Unit ℚ
  /-- Outcome of `generate_content` plus JSON parsing plus the float
  conversion in `get_nlp_risk_score`, keyed by the notes text. -/
  nlpOutcome : String → Except Unit ℚ
  /-- `date.today()` as a day number. -/
  today : Int

/-! ## services/gemini_service.py -/

/-- The body of `_assess_image_object` (gemini_service.py lines 91-114): any
exception in the call, the JSON parsing or the float conversion is caught and
mapped to `0.5`; otherwise the parsed score is returned. -/
def assess_image_object (env : Env) (source asset_type : String) : ℚ :=
  match env.visionOutcome source asset_type with
  | .ok v => v
  | .error _ => 1/2

/-- assess_single_image (gemini_service.py lines 38-60). Note the order of the
guards in the source: the client check (lines 43-45) precedes the
file-existence check (lines 47-50). -/
def assess_single_image (env : Env) (image_path asset_type : String) : ℚ :=
  if !env.clientAvailable then 1/2
  else if !env.fileExists image_path then 0
  else if !env.openOk image_path then 1/2
  else assess_image_object env image_path asset_type

/-- assess_base64_image (gemini_service.py lines 63-88). -/
def assess_base64_image (env : Env) (base64_data asset_type : String) : ℚ :=
  if !env.clientAvailable then 1/2
  else if !env.b64Ok base64_data then 1/2
  else assess_image_object env base64_data asset_type

/-- The `scores` aggregation at the end of get_dual_vision_risk_score
(gemini_service.py lines 129-152): the list of the computed scores, business
first, then `sum(scores)/len(scores)` when non-empty, else `0.5`. -/
def combine_scores (business_score home_score : Option ℚ) : ℚ :=
  let scores : List ℚ :=
    (match business_score with | some s => [s] | none => [])
      ++ (match home_score with | some s => [s] | none => [])
  if scores ≠ [] then scores.sum / (scores.length : ℚ) else 1/2

/-- get_dual_vision_risk_score (gemini_service.py lines 117-154), returning
`(business_score, home_score, combined_score)`. Each slot prefers the base64
payload over the file path; Python truthiness governs the `if`s. -/
def get_dual_vision_risk_score (env : Env)
    (business_image_path home_image_path business_image_base64 home_image_base64 :
      Option String) :
    Option ℚ × Option ℚ × ℚ :=
  let business_score : Option ℚ :=
    if truthy business_image_base64 then
      some (assess_base64_image env (business_image_base64.getD "") "Business")
    else if truthy business_image_path then
      some (assess_single_image env (business_image_path.getD "") "Business")
    else none
  let home_score : Option ℚ :=
    if truthy home_image_base64 then
      some (assess_base64_image env (home_image_base64.getD "") "Home")
    else if truthy home_image_path then
      some (assess_single_image env (home_image_path.getD "") "Home")
    else none
  (business_score, home_score, combine_scores business_score home_score)

/-- get_nlp_risk_score (gemini_service.py lines 157-188): neutral `0.5` when
the client is unavailable or the notes are empty/blank, else the call outcome
with any exception mapped to `0.5`. -/
def get_nlp_risk_score (env : Env) (agent_notes : String) : ℚ :=
  if !env.clientAvailable then 1/2
  else if agent_notes.trim = "" then 1/2
  else
    match env.nlpOutcome agent_notes with
    | .ok v => v
    | .error _ => 1/2

/-! ## services/ml_inference.py -/

/-- categorize_age (ml_inference.py lines 56-64). -/
def categorize_age (age : Int) : String :=
  if age ≤ 25 then "young"
  else if age ≤ 35 then "adult"
  else if age ≤ 50 then "mature"
  else "senior"

/-- The `bill_gap_days` column (ml_inference.py lines 92-95): paid minus
scheduled date in days; a `NaT` in either operand propagates and is then
`fillna(0)`, so an absent date yields gap `0`. -/
def bill_gap_days (b : BillData) : Int :=
  match b.bill_paid_date, b.bill_scheduled_date with
  | some p, some s => p - s
  | _, _ => 0

/-- The `is_bill_late` column (ml_inference.py line 96): `gap_days > 0`. -/
def is_bill_late (b : BillData) : Bool :=
  bill_gap_days b > 0

/-- The bill aggregates of prepare_features (ml_inference.py lines 84-103),
returning `(avg_bill_gap, late_ratio, paid_ratio)`. -/
def bill_aggregates (bills_data : List BillData) : ℚ × ℚ × ℚ :=
  if bills_data.isEmpty then (0, 0, 0)
  else
    let avg_bill_gap : ℚ :=
      (bills_data.map (fun b => (bill_gap_days b : ℚ))).sum / (bills_data.length : ℚ)
    let late_ratio : ℚ :=
      ((bills_data.filter is_bill_late).length : ℚ) / (bills_data.length : ℚ)
    let total_amount := (bills_data.map BillData.amount).sum
    let total_paid := (bills_data.map BillData.paid_amount).sum
    let paid_ratio := if total_amount > 0 then total_paid / total_amount else 0
    (avg_bill_gap, late_ratio, paid_ratio)

/-- prepare_features (ml_inference.py lines 67-130). The source returns
`(pd.DataFrame([features]), features)` whose two components have identical
content; the embedding returns the feature record once. `today` is the
`date.today()` value supplied by the environment, `date_of_birth` the parsed
day number (`none` models an unparseable date, pandas `NaT`, giving age 0). -/
def prepare_features (today : Int) (customer_number : String)
    (principal_amount outstanding_amount : ℚ) (dpd : Int)
    (marital_status : String) (date_of_birth : Option Int)
    (bills_data : List BillData) : Features :=
  let agg := bill_aggregates bills_data
  let outstanding_ratio :=
    if principal_amount > 0 then outstanding_amount / principal_amount else 0
  let age : Int :=
    match date_of_birth with
    | some dob => Int.fdiv (today - dob) 365
    | none => 0
  { principal_amount := principal_amount
    outstanding_amount := outstanding_amount
    outstanding_ratio := outstanding_ratio
    avg_bill_gap := agg.1
    late_ratio := agg.2.1
    paid_ratio := agg.2.2
    marital_status := marital_status
    age_group := categorize_age age }

/-- get_model (ml_inference.py lines 38-53): a missing artifact raises
`FileNotFoundError`; a failing `pickle.load` propagates its exception. The
module-level `_model` cache only memoizes the loaded value and is dropped in
this pure embedding. -/
def get_model (env : Env) : Except PyErr (Features → ℚ) :=
  if !env.modelPresent then .error .fileNotFound
  else
    match env.modelLoad with
    | .ok m => .ok m
    | .error _ => .error .unpickling

/-- predict_default_probability (ml_inference.py lines 133-162). -/
def predict_default_probability (env : Env) (customer_number : String)
    (principal_amount outstanding_amount : ℚ) (dpd : Int)
    (marital_status : String) (date_of_birth : Option Int)
    (bills_data : List BillData) : Except PyErr (ℚ × Features) := do
  let model ← get_model env
  let features := prepare_features env.today customer_number principal_amount
    outstanding_amount dpd marital_status date_of_birth bills_data
  pure (model features, features)

/-! ## services/scoring_engine.py : explanation and orchestrator -/

/-- Round a rational to the nearest integer, ties to even, modelling the
rounding of Python float formatting. -/
def round_half_even (q : ℚ) : Int :=
  let f := ⌊q⌋
  if q - f < 1/2 then f
  else if q - f > 1/2 then f + 1
  else if f % 2 = 0 then f else f + 1

/-- Python `f"{q:.1%}"`: the value times 100, one decimal digit, percent sign
(rounding modelled as exact round-half-even on the rational). -/
def format_percent (q : ℚ) : String :=
  let m := round_half_even (q * 1000)
  toString (m / 10) ++ "." ++ toString (m % 10) ++ "%"

/-- generate_explanation (scoring_engine.py lines 69-108): fixed clause
templates, one clause per present input, joined by `" ".join(parts)`. -/
def generate_explanation (pod : ℚ) (vision_score nlp_score : Option ℚ)
    (final_score : ℚ) (risk_category : String) : String :=
  let parts : List String :=
    [if pod ≥ 7/10 then
        "High default probability (" ++ format_percent pod
          ++ ") based on payment history and loan metrics."
      else if pod ≥ 5/10 then
        "Moderate default probability (" ++ format_percent pod
          ++ ") based on payment history."
      else
        "Low default probability (" ++ format_percent pod
          ++ ") indicating good payment behavior."]
  let parts := parts ++
    (match vision_score with
     | some v =>
        [if v ≥ 7/10 then "Asset condition assessment shows good quality assets."
          else if v ≥ 4/10 then "Asset condition is average."
          else "Asset condition raises concerns."]
     | none => [])
  let parts := parts ++
    (match nlp_score with
     | some n =>
        [if n ≥ 7/10 then "Field agent notes indicate positive customer cooperation."
          else if n ≥ 4/10 then "Field agent notes are neutral."
          else "Field agent notes indicate potential issues."]
     | none => [])
  let parts := parts ++
    ["Overall risk score: " ++ format_percent final_score
      ++ ". Risk category: " ++ risk_category ++ "."]
  String.intercalate " " parts

/-- Python attribute read `request.business_image_base64` (scoring_engine.py
lines 137 and 144): `LoanAssessmentRequest` (assessment.py lines 27-38)
declares no such field, so pydantic raises `AttributeError`. -/
def request_business_image_base64 (_request : LoanAssessmentRequest) :
    Except PyErr (Option String) :=
  .error .attributeError

/-- Python attribute read `request.home_image_base64` (scoring_engine.py
lines 137 and 145): `LoanAssessmentRequest` declares no such field, so
pydantic raises `AttributeError`. -/
def request_home_image_base64 (_request : LoanAssessmentRequest) :
    Except PyErr (Option String) :=
  .error .attributeError

/-- The constructor call `AssessmentResponse(...)` at scoring_engine.py lines
183-193. The call supplies loan_id, customer_number, ml_score, vision_score,
nlp_score, final_risk_score, risk_category, explanation and weights_used but
not the required field `recommendation` (assessment.py line 65), so pydantic
validation raises `ValidationError`. -/
def assessment_response_ctor_line_183 (_loan_id _customer_number : String)
    (_ml_score : MLScoreResult) (_vision_score : Option VisionScoreResult)
    (_nlp_score : Option NLPScoreResult) (_final_risk_score : ℚ)
    (_risk_category : RiskCategory) (_explanation : String)
    (_weights_used : List (String × ℚ)) : Except PyErr AssessmentResponse :=
  .error .validationError

/-- assess_loan (scoring_engine.py lines 111-193). The `has_images`
expression short-circuits: the undeclared base64 attributes are only read
when both path fields are falsy; when `has_images` is truthy, the keyword
arguments of the `get_dual_vision_risk_score` call read them instead
(lines 144-145). -/
def assess_loan (env : Env) (request : LoanAssessmentRequest) :
    Except PyErr AssessmentResponse := do
  let pf ← predict_default_probability env request.customer_number
    request.principal_amount request.outstanding_amount request.dpd
    request.marital_status request.date_of_birth request.bills_data
  let pod := pf.1
  let ml_result : MLScoreResult := ⟨pod, pf.2⟩
  let has_images ←
    if truthy request.business_image_path || truthy request.home_image_path then
      pure true
    else do
      let b ← request_business_image_base64 request
      if truthy b then pure true
      else do
        let h ← request_home_image_base64 request
        pure (truthy h)
  let vr ←
    if has_images then do
      let bb ← request_business_image_base64 request
      let hb ← request_home_image_base64 request
      let dual := get_dual_vision_risk_score env request.business_image_path
        request.home_image_path bb hb
      pure (some (VisionScoreResult.mk dual.1 dual.2.1 dual.2.2), some dual.2.2)
    else
      pure ((none : Option VisionScoreResult), (none : Option ℚ))
  let vision_result := vr.1
  let combined_vision_score := vr.2
  let nr : Option NLPScoreResult × Option ℚ :=
    if truthy request.field_agent_notes then
      let notes := request.field_agent_notes.getD ""
      let nlp := get_nlp_risk_score env notes
      (some ⟨nlp, some (notes.take 200)⟩, some nlp)
    else (none, none)
  let nlp_result := nr.1
  let nlp_score := nr.2
  let fw := calculate_final_score pod combined_vision_score nlp_score DEFAULT_WEIGHTS
  let final_score := fw.1
  let weights_used := fw.2
  let risk_category := get_risk_category final_score
  let explanation := generate_explanation pod combined_vision_score nlp_score
    final_score risk_category.value
  assessment_response_ctor_line_183 request.loan_id request.customer_number
    ml_result vision_result nlp_result final_score risk_category explanation
    weights_used

/-! ## routers/assessment.py -/

/-- Result of the HTTP handler: a response body or an HTTPException. -/
inductive RouterResult where
  | success (response : AssessmentResponse)
  | httpError (status : Nat) (detail : String)

/-- Python `str(e)` for the embedded exceptions (message content abridged). -/
def py_err_str : PyErr → String
  | .fileNotFound => "Model file not found"
  | .attributeError => "LoanAssessmentRequest object has no attribute business_image_base64"
  | .validationError => "1 validation error for AssessmentResponse"
  | .unpickling => "could not unpickle model artifact"

/-- create_assessment (routers/assessment.py lines 17-38): `FileNotFoundError`
is caught first and reported as "ML model not found", every other exception as
"Assessment failed". -/
def create_assessment (env : Env) (request : LoanAssessmentRequest) : RouterResult :=
  match assess_loan env request with
  | .ok result => .success result
  | .error .fileNotFound =>
      .httpError 500 ("ML model not found: " ++ py_err_str .fileNotFound)
  | .error e => .httpError 500 ("Assessment failed: " ++ py_err_str e)

/-! ## Concrete fixtures used by witnesses and counterexamples -/

/-- An environment in which every external collaborator behaves: the model is
present and loadable (constant probability of default 0.2), the Gemini client
is available, no referenced image file exists on disk. -/
def test_env : Env where
  modelPresent := true
  modelLoad := .ok (fun _ => 2/10)
  clientAvailable := true
  fileExists := fun _ => false
  openOk := fun _ => true
  b64Ok := fun _ => true
  visionOutcome := fun _ _ => .ok (1/10)
  nlpOutcome := fun _ => .ok (9/10)
  today := 20000

/-- test_env with the classifier artifact absent. -/
def no_model_env : Env := { test_env with modelPresent := false }

/-- test_env with the Gemini client unavailable (no API key). -/
def no_client_env : Env := { test_env with clientAvailable := false }

/-- A pod-only request: no images, no field-agent notes. -/
def test_request : LoanAssessmentRequest where
  loan_id := "LN-1"
  customer_number := "CUST-1"
  principal_amount := 1000
  outstanding_amount := 500
  dpd := 0
  marital_status := "single"
  date_of_birth := some 9000
  bills_data := []
  field_agent_notes := none
  business_image_path := none
  home_image_path := none

/-- test_request with field-agent notes supplied. -/
def notes_request : LoanAssessmentRequest :=
  { test_request with field_agent_notes := some "Customer is cooperative and promised to pay." }

/-- A bill paid ten days after its scheduled date, fully paid. -/
def bill_ten_days_late : BillData := ⟨100, 100, some 110, some 100⟩

/-- A bill with no paid date. -/
def bill_unpaid : BillData := ⟨50, 0, none, some 100⟩

/-! ## Theorems -/

/-- Characterization of the score component of `calculate_final_score` for an
arbitrary weights map, shared by the fusion theorems below. -/
theorem calculate_final_score_eq (pod : ℚ) (vision_score nlp_score : Option ℚ)
    (w : Weights) :
    (calculate_final_score pod vision_score nlp_score w).1
      = if total_weight_of w vision_score nlp_score > 0
        then clamp01 (weighted_sum_of w pod vision_score nlp_score
              / total_weight_of w vision_score nlp_score * sum_default_weights)
        else pod := by
  cases vision_score <;> cases nlp_score <;>
    simp [calculate_final_score, total_weight_of, weighted_sum_of, clamp01]

/-- C1: with the default weights, `calculate_final_score` returns the clamped
value of the weighted risk sum of the present components divided by the total
weight of the present components and rescaled by the sum of all nominal
weights (1.00); in particular pod 0.9, vision 0.1, nlp absent yields exactly
0.9. -/
theorem C1_fusion_matches_spec_formula (pod : ℚ) (vision_score nlp_score : Option ℚ)
    (hp0 : 0 ≤ pod) (hp1 : pod ≤ 1)
    (hv : ∀ v ∈ vision_score, 0 ≤ v ∧ v ≤ 1)
    (hn : ∀ n ∈ nlp_score, 0 ≤ n ∧ n ≤ 1) :
    (calculate_final_score pod vision_score nlp_score DEFAULT_WEIGHTS).1
      = spec_final_score pod vision_score nlp_score
    ∧ (calculate_final_score (9/10) (some (1/10)) none DEFAULT_WEIGHTS).1 = 9/10 := by
  constructor
  · rw [calculate_final_score_eq]
    cases vision_score <;> cases nlp_score <;>
      norm_num [spec_final_score, total_weight_of, weighted_sum_of,
        sum_default_weights, DEFAULT_WEIGHTS]
  · rw [calculate_final_score_eq]
    norm_num [total_weight_of, weighted_sum_of, sum_default_weights,
      DEFAULT_WEIGHTS, clamp01]

/-- Witness for C1 at pod 0.9, vision 0.1, nlp absent. -/
theorem C1_fusion_matches_spec_formula_witness :
    ((0:ℚ) ≤ 9/10 ∧ (9:ℚ)/10 ≤ 1)
    ∧ (calculate_final_score (9/10) (some (1/10)) none DEFAULT_WEIGHTS).1
        = spec_final_score (9/10) (some (1/10)) none
    ∧ (calculate_final_score (9/10) (some (1/10)) none DEFAULT_WEIGHTS).1 = 9/10 :=
  ⟨by norm_num,
   C1_fusion_matches_spec_formula (9/10) (some (1/10)) none (by norm_num) (by norm_num)
     (by intro v hv; simp only [Option.mem_def, Option.some.injEq] at hv
         subst hv; norm_num)
     (by intro n hn; simp at hn)⟩

/-- C4: the risk tier is LOW iff the score is below 0.3, MEDIUM iff in
[0.3, 0.5), HIGH iff in [0.5, 0.7), VERY_HIGH iff at least 0.7, and the
recommendation is APPROVE below 0.4, REVIEW in [0.4, 0.6), REJECT at or
above 0.6; the boundary scores 0.3, 0.7, 0.4, 0.6 give MEDIUM, VERY_HIGH,
REVIEW and REJECT respectively. -/
theorem C4_decision_thresholds (s : ℚ) :
    (get_risk_category s = .LOW ↔ s < 3/10)
    ∧ (get_risk_category s = .MEDIUM ↔ 3/10 ≤ s ∧ s < 5/10)
    ∧ (get_risk_category s = .HIGH ↔ 5/10 ≤ s ∧ s < 7/10)
    ∧ (get_risk_category s = .VERY_HIGH ↔ 7/10 ≤ s)
    ∧ (get_recommendation s = .APPROVE ↔ s < 4/10)
    ∧ (get_recommendation s = .REVIEW ↔ 4/10 ≤ s ∧ s < 6/10)
    ∧ (get_recommendation s = .REJECT ↔ 6/10 ≤ s)
    ∧ get_risk_category (3/10) = .MEDIUM
    ∧ get_risk_category (7/10) = .VERY_HIGH
    ∧ get_recommendation (4/10) = .REVIEW
    ∧ get_recommendation (6/10) = .REJECT := by
  refine ⟨?_, ?_, ?_, ?_, ?_, ?_, ?_,
    by norm_num [get_risk_category], by norm_num [get_risk_category],
    by norm_num [get_recommendation], by norm_num [get_recommendation]⟩ <;>
  · simp only [get_risk_category, get_recommendation]
    split_ifs <;> simp_all <;> (try constructor) <;> intros <;> linarith

/-- C5: fusing pod 0.8 with both optional signals absent yields exactly 0.8,
and fusing the same pod with a perfect vision score 1.0 present yields
0.56/0.85, strictly below 0.8. -/
theorem C5_weight_degradation :
    (calculate_final_score (8/10) none none DEFAULT_WEIGHTS).1 = 8/10
    ∧ (calculate_final_score (8/10) (some 1) none DEFAULT_WEIGHTS).1
        = (56/100) / (85/100)
    ∧ (calculate_final_score (8/10) (some 1) none DEFAULT_WEIGHTS).1 < 8/10 := by
  refine ⟨?_, ?_, ?_⟩ <;>
    rw [calculate_final_score_eq] <;>
    norm_num [total_weight_of, weighted_sum_of, sum_default_weights,
      DEFAULT_WEIGHTS, clamp01]

/-- C9: for an arbitrary weights map the rescale factor applied after
dividing by the present-weight total is the sum of the module-level
DEFAULT_WEIGHTS values, 1.00, not the sum of the supplied map; hence two
proportional weight maps produce identical final scores. -/
theorem C9_rescale_uses_default_sum (w : Weights) (c pod : ℚ)
    (vision_score nlp_score : Option ℚ) (hc : 0 < c) :
    (calculate_final_score pod vision_score nlp_score w).1
      = (if total_weight_of w vision_score nlp_score > 0
         then clamp01 (weighted_sum_of w pod vision_score nlp_score
               / total_weight_of w vision_score nlp_score * 1)
         else pod)
    ∧ (calculate_final_score pod vision_score nlp_score
          ⟨c * w.pod, c * w.vision, c * w.nlp⟩).1
        = (calculate_final_score pod vision_score nlp_score w).1 := by
  have hsum : sum_default_weights = 1 := by
    norm_num [sum_default_weights, DEFAULT_WEIGHTS]
  constructor
  · rw [calculate_final_score_eq, hsum]
  · have htw : total_weight_of ⟨c * w.pod, c * w.vision, c * w.nlp⟩ vision_score nlp_score
        = c * total_weight_of w vision_score nlp_score := by
      cases vision_score <;> cases nlp_score <;>
        simp [total_weight_of] <;> ring
    have hws : weighted_sum_of ⟨c * w.pod, c * w.vision, c * w.nlp⟩ pod vision_score nlp_score
        = c * weighted_sum_of w pod vision_score nlp_score := by
      cases vision_score <;> cases nlp_score <;>
        simp [weighted_sum_of] <;> ring
    rw [calculate_final_score_eq, calculate_final_score_eq, htw, hws]
    by_cases h : total_weight_of w vision_score nlp_score > 0
    · rw [if_pos h, if_pos (mul_pos hc h),
        mul_div_mul_left _ _ (ne_of_gt hc)]
    · rw [if_neg h, if_neg]
      push_neg at h ⊢
      nlinarith

/-- Witness for C9 at the map with all weights doubled. -/
theorem C9_rescale_uses_default_sum_witness :
    (0:ℚ) < 2
    ∧ (calculate_final_score (1/2) (some (1/4)) none ⟨2 * (7/10), 2 * (15/100), 2 * (15/100)⟩).1
        = (calculate_final_score (1/2) (some (1/4)) none ⟨7/10, 15/100, 15/100⟩).1 :=
  ⟨by norm_num,
   (C9_rescale_uses_default_sum ⟨7/10, 15/100, 15/100⟩ 2 (1/2) (some (1/4)) none
     (by norm_num)).2⟩

/-- C3 counterexample: when the Gemini client is unavailable, a referenced
file that does not exist still yields the neutral 0.5, not 0.0, because the
client guard precedes the existence check; the claim as stated is false. -/
theorem C3_missing_file_not_always_zero :
    no_client_env.clientAvailable = false
    ∧ no_client_env.fileExists "/images/shop.jpg" = false
    ∧ assess_single_image no_client_env "/images/shop.jpg" "Business" = 1/2
    ∧ (1:ℚ)/2 ≠ 0 := by
  refine ⟨rfl, rfl, rfl, by norm_num⟩

/-- C3 amended: when the client is available, a missing referenced file yields
the maximal-risk 0.0; an unavailable client, an unreadable image or a failing
external call each yield the neutral 0.5; the two fallback values are
distinct. -/
theorem C3_fallback_values (env : Env) (image_path asset_type : String) :
    (env.clientAvailable = false →
      assess_single_image env image_path asset_type = 1/2)
    ∧ (env.clientAvailable = true → env.fileExists image_path = false →
        assess_single_image env image_path asset_type = 0)
    ∧ (env.clientAvailable = true → env.fileExists image_path = true →
        env.openOk image_path = false →
        assess_single_image env image_path asset_type = 1/2)
    ∧ (∀ e, env.clientAvailable = true → env.fileExists image_path = true →
        env.openOk image_path = true →
        env.visionOutcome image_path asset_type = .error e →
        assess_single_image env image_path asset_type = 1/2)
    ∧ (0:ℚ) ≠ 1/2 := by
  refine ⟨?_, ?_, ?_, ?_, by norm_num⟩ <;>
    intros <;> simp_all [assess_single_image, assess_image_object]

/-- Witness for C3 amended: client available and file absent gives 0.0. -/
theorem C3_fallback_values_witness :
    test_env.clientAvailable = true
    ∧ test_env.fileExists "/images/shop.jpg" = false
    ∧ assess_single_image test_env "/images/shop.jpg" "Business" = 0 :=
  ⟨rfl, rfl, (C3_fallback_values test_env "/images/shop.jpg" "Business").2.1 rfl rfl⟩

/-- C8: the combined vision score is `combine_scores` of the two per-image
results, a score is computed for a slot exactly when that slot has a truthy
base64 payload or file path, and `combine_scores` is the identity on one
computed score and the arithmetic mean of two, never imputing a missing one
as 0.5 before averaging. -/
theorem C8_combined_is_mean_of_computed (env : Env)
    (business_image_path home_image_path business_image_base64 home_image_base64 :
      Option String) (x y : ℚ) :
    (get_dual_vision_risk_score env business_image_path home_image_path
        business_image_base64 home_image_base64).2.2
      = combine_scores
          (get_dual_vision_risk_score env business_image_path home_image_path
            business_image_base64 home_image_base64).1
          (get_dual_vision_risk_score env business_image_path home_image_path
            business_image_base64 home_image_base64).2.1
    ∧ (get_dual_vision_risk_score env business_image_path home_image_path
          business_image_base64 home_image_base64).1.isSome
        = (truthy business_image_base64 || truthy business_image_path)
    ∧ (get_dual_vision_risk_score env business_image_path home_image_path
          business_image_base64 home_image_base64).2.1.isSome
        = (truthy home_image_base64 || truthy home_image_path)
    ∧ combine_scores (some x) none = x
    ∧ combine_scores none (some y) = y
    ∧ combine_scores (some x) (some y) = (x + y) / 2 := by
  refine ⟨rfl, ?_, ?_, ?_, ?_, ?_⟩
  · by_cases h1 : truthy business_image_base64 <;>
      by_cases h2 : truthy business_image_path <;>
      simp [get_dual_vision_risk_score, h1, h2]
  · by_cases h1 : truthy home_image_base64 <;>
      by_cases h2 : truthy home_image_path <;>
      simp [get_dual_vision_risk_score, h1, h2]
  · norm_num [combine_scores]
  · norm_num [combine_scores]
  · norm_num [combine_scores]
    intro h
    simp at h

/-- C6: an empty bill list yields zero aggregates; a bill with no paid date
has gap 0 and is not late; the late ratio is the fraction of bills with
positive gap over all bills, giving 1.0 for a single bill paid ten days after
schedule; the paid ratio is total paid over total billed, 0 when the total
billed is 0. -/
theorem C6_bill_features (bills : List BillData) (b : BillData)
    (hne : bills ≠ [])
    (hamt : ∀ x ∈ bills, 0 ≤ x.amount)
    (hpd : b.bill_paid_date = none) :
    bill_aggregates [] = (0, 0, 0)
    ∧ bill_gap_days b = 0
    ∧ is_bill_late b = false
    ∧ (bill_aggregates bills).2.1
        = ((bills.filter (fun x => bill_gap_days x > 0)).length : ℚ)
            / (bills.length : ℚ)
    ∧ (bill_aggregates [bill_ten_days_late]).2.1 = 1
    ∧ (bill_aggregates bills).2.2
        = (if (bills.map BillData.amount).sum = 0 then 0
           else (bills.map BillData.paid_amount).sum
                  / (bills.map BillData.amount).sum) := by
  obtain ⟨a, l, rfl⟩ : ∃ a l, bills = a :: l := by
    cases bills with
    | nil => exact absurd rfl hne
    | cons a l => exact ⟨a, l, rfl⟩
  have hgap : bill_gap_days b = 0 := by
    cases hs : b.bill_scheduled_date <;> simp [bill_gap_days, hpd, hs]
  have hsum0 : 0 ≤ ((a :: l).map BillData.amount).sum := by
    apply List.sum_nonneg
    intro q hq
    obtain ⟨z, hz, rfl⟩ := List.mem_map.mp hq
    exact hamt z hz
  refine ⟨rfl, hgap, by simp [is_bill_late, hgap], rfl,
    by norm_num [bill_aggregates, List.filter_cons, is_bill_late,
      bill_gap_days, bill_ten_days_late], ?_⟩
  by_cases hz : ((a :: l).map BillData.amount).sum = 0
  · rw [if_pos hz]
    simp only [bill_aggregates, List.isEmpty_cons, Bool.false_eq_true, if_false]
    rw [if_neg]
    rw [hz]
    exact lt_irrefl 0
  · rw [if_neg hz]
    simp only [bill_aggregates, List.isEmpty_cons, Bool.false_eq_true, if_false]
    rw [if_pos (lt_of_le_of_ne hsum0 (Ne.symm hz))]

/-- Witness for C6 at a single bill paid ten days late and an unpaid bill. -/
theorem C6_bill_features_witness :
    ([bill_ten_days_late] ≠ ([] : List BillData))
    ∧ (∀ x ∈ [bill_ten_days_late], 0 ≤ x.amount)
    ∧ bill_unpaid.bill_paid_date = none
    ∧ (bill_aggregates [bill_ten_days_late]).2.1 = 1
    ∧ bill_gap_days bill_unpaid = 0 :=
  ⟨by simp,
   by intro x hx; simp only [List.mem_singleton] at hx
      subst hx; norm_num [bill_ten_days_late],
   rfl,
   (C6_bill_features [bill_ten_days_late] bill_unpaid (by simp)
      (by intro x hx; simp only [List.mem_singleton] at hx
          subst hx; norm_num [bill_ten_days_late])
      rfl).2.2.2.2.1,
   (C6_bill_features [bill_ten_days_late] bill_unpaid (by simp)
      (by intro x hx; simp only [List.mem_singleton] at hx
          subst hx; norm_num [bill_ten_days_late])
      rfl).2.1⟩

/-- C7: with the classifier artifact absent, the prediction path returns the
dedicated `FileNotFoundError`, never a probability, and the HTTP handler maps
it to the distinct "ML model not found" detail rather than the generic
"Assessment failed" one. -/
theorem C7_missing_artifact_is_fatal (env : Env) (request : LoanAssessmentRequest)
    (h : env.modelPresent = false) :
    predict_default_probability env request.customer_number
        request.principal_amount request.outstanding_amount request.dpd
        request.marital_status request.date_of_birth request.bills_data
      = .error .fileNotFound
    ∧ (∀ p features, predict_default_probability env request.customer_number
        request.principal_amount request.outstanding_amount request.dpd
        request.marital_status request.date_of_birth request.bills_data
          ≠ .ok (p, features))
    ∧ create_assessment env request
        = .httpError 500 ("ML model not found: " ++ py_err_str .fileNotFound)
    ∧ (∀ env2 : Env, env2.modelPresent = true → env2.modelLoad = .error () →
        predict_default_probability env2 request.customer_number
          request.principal_amount request.outstanding_amount request.dpd
          request.marital_status request.date_of_birth request.bills_data
        = .error .unpickling) := by
  have hm : get_model env = .error .fileNotFound := by simp [get_model, h]
  have hp : predict_default_probability env request.customer_number
      request.principal_amount request.outstanding_amount request.dpd
      request.marital_status request.date_of_birth request.bills_data
      = .error .fileNotFound := by
    simp [predict_default_probability, hm, Bind.bind, Except.bind]
  refine ⟨hp, ?_, ?_, ?_⟩
  · intro p features hcontra
    rw [hp] at hcontra
    exact Except.noConfusion hcontra
  · simp [create_assessment, assess_loan, hp, Bind.bind, Except.bind]
  · intro env2 h1 h2
    simp [predict_default_probability, get_model, h1, h2, Bind.bind,
      Except.bind]

/-- Witness for C7 with the artifact absent in an otherwise healthy
environment. -/
theorem C7_missing_artifact_is_fatal_witness :
    no_model_env.modelPresent = false
    ∧ create_assessment no_model_env test_request
        = .httpError 500 ("ML model not found: " ++ py_err_str .fileNotFound) :=
  ⟨rfl, (C7_missing_artifact_is_fatal no_model_env test_request rfl).2.2.1⟩

/-- C2: for every request with no images and no field-agent notes, under any
environment whose classifier loads, assess_loan raises `AttributeError` while
evaluating `request.business_image_base64` (a field `LoanAssessmentRequest`
does not declare), so it never returns an `AssessmentResponse`; the claimed
successful pod-only assessment never happens. -/
theorem C2_pod_only_assessment_never_succeeds (env : Env)
    (request : LoanAssessmentRequest) (m : Features → ℚ)
    (himg1 : request.business_image_path = none)
    (himg2 : request.home_image_path = none)
    (hnotes : request.field_agent_notes = none)
    (hm : get_model env = .ok m) :
    assess_loan env request = .error .attributeError := by
  simp [assess_loan, predict_default_probability, hm, himg1, himg2, hnotes,
    truthy, request_business_image_base64, Bind.bind, Except.bind, pure,
    Except.pure]

/-- Witness for C2 at the concrete pod-only request in the healthy
environment. -/
theorem C2_pod_only_assessment_never_succeeds_witness :
    test_request.business_image_path = none
    ∧ test_request.home_image_path = none
    ∧ test_request.field_agent_notes = none
    ∧ get_model test_env = .ok (fun _ => (2:ℚ)/10)
    ∧ assess_loan test_env test_request = .error .attributeError :=
  ⟨rfl, rfl, rfl, rfl,
   C2_pod_only_assessment_never_succeeds test_env test_request
     (fun _ => (2:ℚ)/10) rfl rfl rfl rfl⟩

/-- C10: at fixed request inputs and fixed external-call outcomes, the full
assessment does not produce an `AssessmentResponse` at all: it raises
`AttributeError` (undeclared `business_image_base64` attribute) before the
response, whose required `recommendation` field it also never supplies, could
be assembled; the handler reports the generic "Assessment failed" detail. -/
theorem C10_fixed_inputs_no_response_produced :
    assess_loan test_env notes_request = .error .attributeError
    ∧ create_assessment test_env notes_request
        = .httpError 500 ("Assessment failed: " ++ py_err_str .attributeError) := by
  exact ⟨rfl, rfl⟩

end Amara
